import Mathlib

/-!
Shallow embedding of the manufacturing-dashboard modules
(`data_processing.py`, `alerts_engine.py`, `model_inference.py`, `utils.py`).

Numeric values are modelled as exact rationals (`ℚ`).  Python `round(x, n)`
rounds half to even; `roundHalfEven` models that.  DataFrames become lists of
typed rows, so the `column in df.columns` guards of the source are always
true in the model.  pandas `.std()` uses `ddof=1`, so the standard deviation
of a list with fewer than two elements is NaN; we model that with `Option`
(`none` = NaN), and every comparison against NaN is false, as in pandas.
-/

/-- Python banker's rounding to an integer: round half to even. -/
def roundHalfEven (q : ℚ) : ℤ :=
  let f := ⌊q⌋
  let r := q - (f : ℚ)
  if r < 1/2 then f
  else if 1/2 < r then f + 1
  else if f % 2 = 0 then f else f + 1

/-- Python `round(x, 1)`. -/
def rnd1 (q : ℚ) : ℚ := (roundHalfEven (10 * q) : ℚ) / 10

/-- Python `round(x, 0)`. -/
def rnd0 (q : ℚ) : ℚ := (roundHalfEven q : ℚ)

/-- pandas `.mean()`; only applied to nonempty lists in the model
(division by zero in `ℚ` would give `0`, never reached under the guards). -/
def meanQ (l : List ℚ) : ℚ := l.sum / (l.length : ℚ)

/-- pandas `.mean()` where the list can be empty (NaN = `none`). -/
def meanOpt (l : List ℚ) : Option ℚ :=
  if l = [] then none else some (meanQ l)

/-- pandas `.std() ^ 2` with `ddof = 1`: the sample variance, `none` (NaN)
for lists with fewer than two elements. -/
def sampleVar (l : List ℚ) : Option ℚ :=
  if l.length ≤ 1 then none
  else some ((l.map (fun x => (x - meanQ l) ^ 2)).sum / ((l.length : ℚ) - 1))

/-- pandas `.max()`; only applied to nonempty lists in the model. -/
def maxD : List ℚ → ℚ
  | [] => 0
  | x :: xs => xs.foldl max x

/-- Python `f"{q:.1f}"`: fixed-point formatting with one decimal place. -/
def fmt1 (q : ℚ) : String :=
  let n := roundHalfEven (10 * q)
  let sign := if n < 0 then "-" else ""
  let m := n.natAbs
  sign ++ toString (m / 10) ++ "." ++ toString (m % 10)

/-- pandas `.unique()`: distinct values in order of first occurrence. -/
def uniqueFirst (l : List String) : List String :=
  l.foldl (fun acc x => if x ∈ acc then acc else acc.concat x) []

/-- Python `", ".join(...)`. -/
def joinComma (l : List String) : String := String.intercalate ", " l

/-- Days since the Unix epoch of a civil date (Gregorian calendar); models a
pandas `Timestamp` normalised to day precision. -/
def daysFromCivil (y m d : ℤ) : ℤ :=
  let y2 := if m ≤ 2 then y - 1 else y
  let era := (if 0 ≤ y2 then y2 else y2 - 399) / 400
  let yoe := y2 - era * 400
  let mp := (m + 9) % 12
  let doy := (153 * mp + 2) / 5 + d - 1
  let doe := yoe * 365 + yoe / 4 - yoe / 100 + doy
  era * 146097 + doe - 719468

/-- A transformed production row (`transform_production_data` output schema):
the columns read by the health/risk/alert/root-cause functions. -/
structure ProdRow where
  machine_id : String
  efficiency : ℚ
  temperature_c : ℚ
  downtime_minutes : ℚ
  speed_rpm : ℚ
deriving DecidableEq

/-- A raw supplier row: the columns read by `transform_supplier_data`,
delivery dates as day numbers. -/
structure RawSupRow where
  supplier_id : String
  expected_delivery_date : ℤ
  actual_delivery_date : ℤ
deriving DecidableEq

/-- A transformed supplier row: the columns read downstream. -/
structure SupRow where
  supplier_id : String
  supply_risk : String
deriving DecidableEq

/-- `data_processing.transform_supplier_data`: derives `supply_risk` row-wise;
`(actual - expected).dt.days > 0` becomes a positive day difference. -/
def transform_supplier_data (df : List RawSupRow) : List SupRow :=
  df.map (fun r =>
    { supplier_id := r.supplier_id
      supply_risk :=
        if (0 : ℤ) < r.actual_delivery_date - r.expected_delivery_date
        then "Delayed" else "On Time" })

/-- `data_processing.calculate_system_health`.  Each `if` mirrors a
`not df.empty and column present` guard of the source. -/
def calculate_system_health (prod : List ProdRow) (sup : List SupRow) : ℚ :=
  let effComp : List ℚ :=
    if prod = [] then [] else
      [min (max (meanQ (prod.map (·.efficiency))) 0) 100 * 0.4]
  let tempComp : List ℚ :=
    if prod = [] then [] else
      [max (100 - |meanQ (prod.map (·.temperature_c)) - 32.5| * 10) 0 * 0.2]
  let dtComp : List ℚ :=
    if prod = [] then [] else
      [max (100 - meanQ (prod.map (·.downtime_minutes)) * 20) 0 * 0.2]
  let supComp : List ℚ :=
    if sup = [] then [] else
      [(if 0 < sup.length then
          ((sup.filter (fun s => s.supply_risk == "On Time")).length : ℚ) /
            (sup.length : ℚ) * 100
        else 50) * 0.2]
  let comps := effComp ++ tempComp ++ dtComp ++ supComp
  if comps = [] then 50 else rnd1 comps.sum

/-- `data_processing.calculate_risk_index`. -/
def calculate_risk_index (prod : List ProdRow) (sup : List SupRow) : ℚ :=
  let effRisk : List ℚ :=
    if prod = [] then [] else
      [max (100 - meanQ (prod.map (·.efficiency))) 0 * 0.3]
  let tempRisk : List ℚ :=
    if prod = [] then [] else
      [min (max ((maxD (prod.map (·.temperature_c)) - 35) * 20) 0) 100 * 0.3]
  let supRisk : List ℚ :=
    if sup = [] then [] else
      [((sup.filter (fun s => s.supply_risk == "Delayed")).length : ℚ) /
         (sup.length : ℚ) * 100 * 0.4]
  let factors := effRisk ++ tempRisk ++ supRisk
  if factors = [] then 30 else rnd1 (min factors.sum 100)

/-- An alert dictionary as built by `alerts_engine.generate_alerts`
(every alert the engine emits carries all six keys). -/
structure Alert where
  severity : String
  category : String
  message : String
  recommendation : String
  focus_area : String
  priority : ℕ
deriving DecidableEq

/-- `alerts_engine.detect_anomalies` on the selected column (an empty column
models both `df.empty` and a missing column).  The source comparison
`abs((x - mean) / std) > sens` is written square-free: for `std > 0` it is
equivalent to `sens ≥ 0 ∧ (x - mean)² > sens² · std²`, or `True` for
`sens < 0`.  A NaN std (fewer than two rows) makes every comparison false. -/
def detect_anomalies (xs : List ℚ) (sens : ℚ) : List Bool :=
  if xs = [] then []
  else
    match sampleVar xs with
    | none => xs.map (fun _ => false)
    | some v =>
      if v = 0 then List.replicate xs.length false
      else xs.map (fun x =>
        if 0 ≤ sens then decide (sens ^ 2 * v < (x - meanQ xs) ^ 2) else true)

/-- `alerts_engine.detect_spike`: `x > mean + sens · std`, written square-free
(for `std > 0`: when `sens ≥ 0` it is `x - mean > 0 ∧ (x - mean)² > sens² · v`;
when `sens < 0` it is `x - mean ≥ 0 ∨ (x - mean)² < sens² · v`). -/
def detect_spike (xs : List ℚ) (sens : ℚ) : List Bool :=
  if xs = [] then []
  else
    match sampleVar xs with
    | none => xs.map (fun _ => false)
    | some v =>
      if v = 0 then List.replicate xs.length false
      else xs.map (fun x =>
        if 0 ≤ sens then
          decide (0 < x - meanQ xs ∧ sens ^ 2 * v < (x - meanQ xs) ^ 2)
        else
          decide (0 ≤ x - meanQ xs ∨ (x - meanQ xs) ^ 2 < sens ^ 2 * v))

/-- `alerts_engine.detect_drop`: `x < mean - sens · std`, square-free as above. -/
def detect_drop (xs : List ℚ) (sens : ℚ) : List Bool :=
  if xs = [] then []
  else
    match sampleVar xs with
    | none => xs.map (fun _ => false)
    | some v =>
      if v = 0 then List.replicate xs.length false
      else xs.map (fun x =>
        if 0 ≤ sens then
          decide (x - meanQ xs < 0 ∧ sens ^ 2 * v < (x - meanQ xs) ^ 2)
        else
          decide (x - meanQ xs ≤ 0 ∨ (x - meanQ xs) ^ 2 < sens ^ 2 * v))

/-- Rows selected by `df.loc[mask]` for a boolean mask aligned with the rows. -/
def flaggedRows (prod : List ProdRow) (flags : List Bool) : List ProdRow :=
  ((prod.zip flags).filter (·.2)).map (·.1)

/-- The rule-1 alert of `generate_alerts` for one low-efficiency machine. -/
def lowEffAlert (prod : List ProdRow) (m : String) : Alert :=
  { severity := "CRITICAL"
    category := "Production"
    message := "Machine " ++ m ++ " efficiency critically low at " ++
      fmt1 (meanQ ((prod.filter (fun r => r.machine_id == m)).map (·.efficiency))) ++ "%"
    recommendation := "Immediate inspection required for " ++ m ++
      ". Check mechanical systems and calibration."
    focus_area := "Machine Maintenance"
    priority := 1 }

/-- Rule 1 of `generate_alerts`: one alert per machine having a record with
`efficiency < 70` (pandas `unique` keeps first-occurrence order). -/
def lowEffAlerts (prod : List ProdRow) : List Alert :=
  (uniqueFirst ((prod.filter (fun r => decide (r.efficiency < 70))).map (·.machine_id))).map
    (lowEffAlert prod)

/-- Rule 2 of `generate_alerts`: temperature spikes. -/
def tempAlerts (prod : List ProdRow) (sens : ℚ) : List Alert :=
  let flags := detect_spike (prod.map (·.temperature_c)) sens
  if flags.any id then
    let rowsF := flaggedRows prod flags
    let maxT := maxD (rowsF.map (·.temperature_c))
    [{ severity := if 40 < maxT then "CRITICAL" else "WARNING"
       category := "Safety"
       message := "Temperature spike detected: " ++ fmt1 maxT ++ "°C on " ++
         joinComma (uniqueFirst (rowsF.map (·.machine_id)))
       recommendation := "Activate cooling systems. Reduce production load if temperature persists above 38°C."
       focus_area := "Cooling Systems"
       priority := if 40 < maxT then 1 else 2 }]
  else []

/-- Rule 3 of `generate_alerts`: downtime anomalies. -/
def downtimeAlerts (prod : List ProdRow) (sens : ℚ) : List Alert :=
  let flags := detect_spike (prod.map (·.downtime_minutes)) sens
  if flags.any id then
    let rowsF := flaggedRows prod flags
    [{ severity := "WARNING"
       category := "Operational"
       message := "Abnormal downtime detected: " ++
         fmt1 (meanQ (rowsF.map (·.downtime_minutes))) ++ " minutes average"
       recommendation := "Investigate recent maintenance activities. Check for recurring fault patterns."
       focus_area := "Downtime Reduction"
       priority := 2 }]
  else []

/-- The rule-4 alert of `generate_alerts` for a supplier table with delays. -/
def supplyAlert (sup : List SupRow) : Alert :=
  let delayed := sup.filter (fun s => s.supply_risk == "Delayed")
  { severity := if delayed.length ≤ 2 then "WARNING" else "CRITICAL"
    category := "Supply Chain"
    message := toString delayed.length ++ " delayed deliveries from " ++
      joinComma (uniqueFirst (delayed.map (·.supplier_id)))
    recommendation := "Contact suppliers for expedited shipping. Activate backup supplier contracts."
    focus_area := "Supplier Lead Time"
    priority := if delayed.length ≤ 2 then 2 else 1 }

/-- Rule 4 of `generate_alerts`: supply-chain delays (the `supply_risk`
column is always present in the typed model). -/
def supplyAlerts (sup : List SupRow) : List Alert :=
  if sup = [] then []
  else if 0 < (sup.filter (fun s => s.supply_risk == "Delayed")).length then
    [supplyAlert sup]
  else []

/-- Rule 5 of `generate_alerts`: declining-efficiency trend
(`tail(10)` = last ten rows, `head(10)` = first ten rows). -/
def trendAlerts (prod : List ProdRow) : List Alert :=
  if 10 ≤ prod.length then
    let recent := meanQ ((prod.drop (prod.length - 10)).map (·.efficiency))
    let older := meanQ ((prod.take 10).map (·.efficiency))
    let effDrop := older - recent
    if 10 < effDrop then
      [{ severity := "WARNING"
         category := "Trend Analysis"
         message := "Efficiency declining trend detected: -" ++ fmt1 effDrop ++
           "% over recent period"
         recommendation := "Conduct comprehensive system audit. Review maintenance schedules."
         focus_area := "System Performance"
         priority := 2 }]
    else []
  else []

/-- The alerts appended by the five rules of `generate_alerts`, in emission
order, before the final sort (empty production table returns early). -/
def emitted_alerts (prod : List ProdRow) (sup : List SupRow) (sens : ℚ) : List Alert :=
  if prod = [] then []
  else
    lowEffAlerts prod ++ tempAlerts prod sens ++ downtimeAlerts prod sens ++
      supplyAlerts sup ++ trendAlerts prod

/-- The key of the final `sorted(alerts, key=lambda x: x['priority'])`. -/
def priorityLe (a b : Alert) : Bool := decide (a.priority ≤ b.priority)

/-- `alerts_engine.generate_alerts`: emit by the five rules, then a stable
sort by priority (Python `sorted` is stable; `mergeSort` models it). -/
def generate_alerts (prod : List ProdRow) (sup : List SupRow) (sens : ℚ) : List Alert :=
  (emitted_alerts prod sup sens).mergeSort priorityLe

/-- The key of `prioritize_alerts`: lexicographic on
`(priority, severity-as-string)`; every alert built by the engine carries
both keys, so the `.get` defaults of the source never fire in the model. -/
def prioLexLe (a b : Alert) : Bool :=
  decide (a.priority < b.priority ∨ (a.priority = b.priority ∧ a.severity ≤ b.severity))

/-- `alerts_engine.prioritize_alerts`: stable sort by `(priority, severity)`. -/
def prioritize_alerts (alerts : List Alert) : List Alert :=
  alerts.mergeSort prioLexLe

/-- A root cause as reported by `perform_root_cause_analysis`; the `impact`
string of the source is display-only text and is not modelled. -/
structure Cause where
  factor : String
  contribution : ℝ

/-- `model_inference.perform_root_cause_analysis`.  Group means that pandas
turns into NaN (empty high-efficiency group, groups of fewer than two rows
for `.std()`) are `none`, and comparisons against them are false, as in
pandas.  When the high-efficiency group's std is zero and the low group's
is positive, numpy evaluates `s_low / 0` to infinity and the contribution
`min(inf, 100)` to 100; the branch on `sNorm = 0` models that.  The sort is
stable descending by contribution. -/
noncomputable def perform_root_cause_analysis (prod : List ProdRow) (threshold : ℚ) : List Cause :=
  let lowEff := prod.filter (fun r => decide (r.efficiency < threshold))
  if lowEff = [] then [{ factor := "No Issues", contribution := 0 }]
  else
    let highEff := prod.filter (fun r => decide (threshold ≤ r.efficiency))
    let tempCauses : List Cause :=
      match meanOpt (highEff.map (·.temperature_c)) with
      | none => []
      | some mh =>
        let tdiff := meanQ (lowEff.map (·.temperature_c)) - mh
        if 2 < |tdiff| then
          [{ factor := "Temperature", contribution := ((min (|tdiff| * 10) 100 : ℚ) : ℝ) }]
        else []
    let dtCauses : List Cause :=
      match meanOpt (highEff.map (·.downtime_minutes)) with
      | none => []
      | some mh =>
        let ddiff := meanQ (lowEff.map (·.downtime_minutes)) - mh
        if 0.5 < ddiff then
          [{ factor := "Downtime", contribution := ((min (ddiff * 20) 100 : ℚ) : ℝ) }]
        else []
    let spCauses : List Cause :=
      match sampleVar (lowEff.map (·.speed_rpm)), sampleVar (highEff.map (·.speed_rpm)) with
      | some vl, some vh =>
        let sLow := Real.sqrt (vl : ℝ)
        let sNorm := Real.sqrt (vh : ℝ)
        if sNorm * 1.2 < sLow then
          [{ factor := "Speed Instability",
             contribution :=
               if sNorm = 0 then 100
               else min ((sLow / sNorm - 1) * 100) 100 }]
        else []
      | _, _ => []
    ((tempCauses ++ dtCauses ++ spCauses).mergeSort
      (fun a b => decide (b.contribution ≤ a.contribution))).take 3

/-- The dictionary returned by `utils.simulate_what_if`. -/
structure SimResult where
  projected_health : ℚ
  projected_risk : ℚ
  health_change : ℚ
  risk_change : ℚ
  cost_impact : ℚ
deriving DecidableEq

/-- `utils.simulate_what_if`. -/
def simulate_what_if (current_health current_risk : ℚ)
    (efficiency_change temp_change supply_improvement : ℚ) : SimResult :=
  let eff_impact := efficiency_change * 0.4
  let temp_impact := -|temp_change| * 2 * 0.2
  let supply_impact := supply_improvement * 0.2
  let ph := min (max (current_health + eff_impact + temp_impact + supply_impact) 0) 100
  let pr := min (max (100 - ph) 0) 100
  { projected_health := rnd1 ph
    projected_risk := rnd1 pr
    health_change := rnd1 (ph - current_health)
    risk_change := rnd1 (current_risk - pr)
    cost_impact := rnd0 (|ph - current_health| * 500) }

/-! ### Rounding lemmas -/

lemma roundHalfEven_nonneg (q : ℚ) (h : 0 ≤ q) : 0 ≤ roundHalfEven q := by
  have hf : 0 ≤ ⌊q⌋ := Int.floor_nonneg.2 h
  simp only [roundHalfEven]
  split_ifs <;> omega

lemma roundHalfEven_le_intCast (q : ℚ) (n : ℤ) (h : q ≤ (n : ℚ)) :
    roundHalfEven q ≤ n := by
  have hf : ⌊q⌋ ≤ n := by
    have := Int.floor_le_floor h
    simpa using this
  have hfl : (⌊q⌋ : ℚ) ≤ q := Int.floor_le q
  simp only [roundHalfEven]
  split_ifs with a b c
  · exact hf
  · have h1 : (⌊q⌋ : ℚ) < q := by linarith
    have h2 : (⌊q⌋ : ℚ) < (n : ℚ) := lt_of_lt_of_le h1 h
    have h3 : ⌊q⌋ < n := by exact_mod_cast h2
    omega
  · exact hf
  · have h1 : (⌊q⌋ : ℚ) < q := by linarith
    have h2 : (⌊q⌋ : ℚ) < (n : ℚ) := lt_of_lt_of_le h1 h
    have h3 : ⌊q⌋ < n := by exact_mod_cast h2
    omega

lemma rnd1_nonneg (q : ℚ) (h : 0 ≤ q) : 0 ≤ rnd1 q := by
  have h1 := roundHalfEven_nonneg (10 * q) (by linarith)
  unfold rnd1
  have h10 : (0 : ℚ) ≤ (roundHalfEven (10 * q) : ℚ) := by exact_mod_cast h1
  linarith

lemma rnd1_le_100 (q : ℚ) (h : q ≤ 100) : rnd1 q ≤ 100 := by
  have h1 : 10 * q ≤ ((1000 : ℤ) : ℚ) := by push_cast; linarith
  have h2 := roundHalfEven_le_intCast (10 * q) 1000 h1
  unfold rnd1
  have h3 : ((roundHalfEven (10 * q) : ℤ) : ℚ) ≤ 1000 := by exact_mod_cast h2
  linarith

lemma roundHalfEven_of_intCast_eq (q : ℚ) (h : (⌊q⌋ : ℚ) = q) :
    roundHalfEven q = ⌊q⌋ := by
  simp only [roundHalfEven]
  rw [if_pos]
  rw [← h]
  norm_num

lemma floor_intCast_sub_of_lt (k : ℤ) (q : ℚ) (h : (⌊q⌋ : ℚ) < q) :
    ⌊(k : ℚ) - q⌋ = k - ⌊q⌋ - 1 := by
  have h1 : q < (⌊q⌋ : ℚ) + 1 := Int.lt_floor_add_one q
  rw [Int.floor_eq_iff]
  constructor
  · push_cast
    linarith
  · push_cast
    linarith

lemma roundHalfEven_sub_even (k : ℤ) (hk : k % 2 = 0) (q : ℚ) :
    roundHalfEven ((k : ℚ) - q) = k - roundHalfEven q := by
  rcases eq_or_lt_of_le (Int.floor_le q) with heq | hlt
  · have h1 : ((k - ⌊q⌋ : ℤ) : ℚ) = (k : ℚ) - q := by push_cast; linarith
    have h2 : ⌊(k : ℚ) - q⌋ = k - ⌊q⌋ := by rw [← h1, Int.floor_intCast]
    rw [roundHalfEven_of_intCast_eq _ (by rw [h2, h1]),
        roundHalfEven_of_intCast_eq _ heq, h2]
  · have hfl : ⌊(k : ℚ) - q⌋ = k - ⌊q⌋ - 1 := floor_intCast_sub_of_lt k q hlt
    have h1 : q < (⌊q⌋ : ℚ) + 1 := Int.lt_floor_add_one q
    simp only [roundHalfEven, hfl]
    push_cast
    split_ifs with a b c d e f g h i <;> try omega
    all_goals (exfalso; try linarith)

lemma rnd1_100_sub (q : ℚ) : rnd1 (100 - q) = 100 - rnd1 q := by
  unfold rnd1
  have h1 : 10 * (100 - q) = ((1000 : ℤ) : ℚ) - 10 * q := by push_cast; ring
  rw [h1, roundHalfEven_sub_even 1000 (by norm_num) (10 * q)]
  push_cast
  ring

lemma meanQ_nonneg (l : List ℚ) (h : ∀ x ∈ l, 0 ≤ x) : 0 ≤ meanQ l := by
  unfold meanQ
  apply div_nonneg (List.sum_nonneg h)
  exact_mod_cast Nat.zero_le _

/-! ### Claim theorems -/

unseal Rat.add Rat.mul Rat.inv Rat.sub Rat.ofScientific in
/-- C1 (counterexample): the claim that `calculate_system_health` always
stays within [0,100] fails: a production row with efficiency 100, mean
temperature 32.5 and downtime −5 together with an on-time supplier row
yields a health score of 120, because the downtime score
`max(100 - avg_downtime * 20, 0)` is not clamped above. -/
theorem calculate_system_health_above_100 :
    calculate_system_health [⟨"M1", 100, 32.5, -5, 0⟩] [⟨"S1", "On Time"⟩] = 120 ∧
    ¬ (calculate_system_health [⟨"M1", 100, 32.5, -5, 0⟩] [⟨"S1", "On Time"⟩] ≤ 100) := by
  decide

/-- C1 (amended): `calculate_risk_index` always returns a value within
[0,100], for every input; `calculate_system_health` returns a value within
[0,100] provided every downtime value of the production table is
nonnegative (with negative downtime the health score can exceed 100). -/
theorem health_risk_within_bounds (prod : List ProdRow) (sup : List SupRow) :
    (0 ≤ calculate_risk_index prod sup ∧ calculate_risk_index prod sup ≤ 100) ∧
    ((∀ r ∈ prod, 0 ≤ r.downtime_minutes) →
      0 ≤ calculate_system_health prod sup ∧ calculate_system_health prod sup ≤ 100) := by
  have heff : ∀ m : ℚ, 0 ≤ min (max m 0) 100 * 0.4 ∧ min (max m 0) 100 * 0.4 ≤ 40 := by
    intro m
    have h1 : (0 : ℚ) ≤ min (max m 0) 100 := le_min (le_max_right m 0) (by norm_num)
    have h2 : min (max m 0) 100 ≤ 100 := min_le_right _ _
    constructor <;> linarith
  have htemp : ∀ m : ℚ, 0 ≤ max (100 - |m - 32.5| * 10) 0 * 0.2 ∧
      max (100 - |m - 32.5| * 10) 0 * 0.2 ≤ 20 := by
    intro m
    have hd : (0 : ℚ) ≤ |m - 32.5| := abs_nonneg _
    have h1 : (0 : ℚ) ≤ max (100 - |m - 32.5| * 10) 0 := le_max_right _ _
    have h2 : max (100 - |m - 32.5| * 10) 0 ≤ 100 := max_le (by linarith) (by norm_num)
    constructor <;> linarith
  have hle : ((sup.filter (fun s => s.supply_risk == "On Time")).length : ℚ) /
      (sup.length : ℚ) ≤ 1 := by
    apply div_le_one_of_le₀
    · exact_mod_cast List.length_filter_le _ _
    · exact_mod_cast Nat.zero_le _
  have hge : (0 : ℚ) ≤ ((sup.filter (fun s => s.supply_risk == "On Time")).length : ℚ) /
      (sup.length : ℚ) := by positivity
  have e1 := heff (meanQ (prod.map (·.efficiency)))
  have e2 := htemp (meanQ (prod.map (·.temperature_c)))
  constructor
  · have hf1 : (0 : ℚ) ≤ max (100 - meanQ (prod.map (·.efficiency))) 0 * 0.3 := by
      have h1 : (0 : ℚ) ≤ max (100 - meanQ (prod.map (·.efficiency))) 0 := le_max_right _ _
      linarith
    have hf2 : (0 : ℚ) ≤
        min (max ((maxD (prod.map (·.temperature_c)) - 35) * 20) 0) 100 * 0.3 := by
      have h1 : (0 : ℚ) ≤ min (max ((maxD (prod.map (·.temperature_c)) - 35) * 20) 0) 100 :=
        le_min (le_max_right _ _) (by norm_num)
      linarith
    have hf3 : (0 : ℚ) ≤ ((sup.filter (fun s => s.supply_risk == "Delayed")).length : ℚ) /
        (sup.length : ℚ) * 100 * 0.4 := by positivity
    by_cases hp : prod = [] <;> by_cases hs : sup = []
    · norm_num [calculate_risk_index, hp, hs]
    · simp [calculate_risk_index, hp, hs, List.sum_append]
      refine ⟨rnd1_nonneg _ (le_min ?_ (by norm_num)), rnd1_le_100 _ (min_le_right _ _)⟩
      linarith [hf3]
    · simp [calculate_risk_index, hp, hs, List.sum_append]
      refine ⟨rnd1_nonneg _ (le_min ?_ (by norm_num)), rnd1_le_100 _ (min_le_right _ _)⟩
      linarith [hf1, hf2]
    · simp [calculate_risk_index, hp, hs, List.sum_append]
      refine ⟨rnd1_nonneg _ (le_min ?_ (by norm_num)), rnd1_le_100 _ (min_le_right _ _)⟩
      linarith [hf1, hf2, hf3]
  · intro hdt
    have hmdt : 0 ≤ meanQ (prod.map (·.downtime_minutes)) := by
      apply meanQ_nonneg
      intro x hx
      simp only [List.mem_map] at hx
      obtain ⟨r, hr, rfl⟩ := hx
      exact hdt r hr
    have hdtc : 0 ≤ max (100 - meanQ (prod.map (·.downtime_minutes)) * 20) 0 * 0.2 ∧
        max (100 - meanQ (prod.map (·.downtime_minutes)) * 20) 0 * 0.2 ≤ 20 := by
      have h1 : (0 : ℚ) ≤ max (100 - meanQ (prod.map (·.downtime_minutes)) * 20) 0 :=
        le_max_right _ _
      have h2 : max (100 - meanQ (prod.map (·.downtime_minutes)) * 20) 0 ≤ 100 :=
        max_le (by linarith) (by norm_num)
      constructor <;> linarith
    by_cases hp : prod = [] <;> by_cases hs : sup = []
    · norm_num [calculate_system_health, hp, hs]
    · simp [calculate_system_health, hp, hs]
      refine ⟨rnd1_nonneg _ ?_, rnd1_le_100 _ ?_⟩ <;> split_ifs <;> linarith [hle, hge]
    · simp [calculate_system_health, hp, hs, List.sum_append]
      refine ⟨rnd1_nonneg _ ?_, rnd1_le_100 _ ?_⟩ <;>
        linarith [e1.1, e1.2, e2.1, e2.2, hdtc.1, hdtc.2]
    · simp [calculate_system_health, hp, hs, List.sum_append]
      refine ⟨rnd1_nonneg _ ?_, rnd1_le_100 _ ?_⟩ <;> split_ifs <;>
        linarith [e1.1, e1.2, e2.1, e2.2, hdtc.1, hdtc.2, hle, hge]

unseal Rat.add Rat.mul Rat.inv Rat.sub Rat.ofScientific in
/-- Witness for `health_risk_within_bounds` at a concrete input. -/
theorem health_risk_within_bounds_witness :
    (0 ≤ calculate_risk_index [⟨"M1", 80, 33, 2, 1000⟩] [⟨"S1", "On Time"⟩] ∧
      calculate_risk_index [⟨"M1", 80, 33, 2, 1000⟩] [⟨"S1", "On Time"⟩] ≤ 100) ∧
    (0 ≤ calculate_system_health [⟨"M1", 80, 33, 2, 1000⟩] [⟨"S1", "On Time"⟩] ∧
      calculate_system_health [⟨"M1", 80, 33, 2, 1000⟩] [⟨"S1", "On Time"⟩] ≤ 100) :=
  ⟨(health_risk_within_bounds [⟨"M1", 80, 33, 2, 1000⟩] [⟨"S1", "On Time"⟩]).1,
    (health_risk_within_bounds [⟨"M1", 80, 33, 2, 1000⟩] [⟨"S1", "On Time"⟩]).2 (by decide)⟩

unseal Rat.add Rat.mul Rat.inv Rat.sub Rat.ofScientific in
/-- C7: the what-if scenario `simulate(health=70, risk=30, eff_change=10,
temp_change=0, supply_change=0)` returns projected health 74.0, projected
risk 26.0, health change 4.0, risk change 4.0 and cost impact 2000.0. -/
theorem simulate_what_if_scenario :
    simulate_what_if 70 30 10 0 0 =
      { projected_health := 74, projected_risk := 26, health_change := 4,
        risk_change := 4, cost_impact := 2000 } := by
  decide

/-- C10: for all inputs, `simulate_what_if` returns a projected risk equal
to 100 minus the projected health (both rounded to one decimal), and the
`current_risk` argument affects neither projected health, projected risk,
health change nor cost impact — only the reported risk change. -/
theorem simulate_risk_complements_health (ch cr cr2 e t s : ℚ) :
    (simulate_what_if ch cr e t s).projected_risk
      = 100 - (simulate_what_if ch cr e t s).projected_health ∧
    (simulate_what_if ch cr e t s).projected_risk
      = (simulate_what_if ch cr2 e t s).projected_risk ∧
    (simulate_what_if ch cr e t s).projected_health
      = (simulate_what_if ch cr2 e t s).projected_health ∧
    (simulate_what_if ch cr e t s).health_change
      = (simulate_what_if ch cr2 e t s).health_change ∧
    (simulate_what_if ch cr e t s).cost_impact
      = (simulate_what_if ch cr2 e t s).cost_impact := by
  refine ⟨?_, rfl, rfl, rfl, rfl⟩
  simp only [simulate_what_if]
  set ph := min (max (ch + e * 0.4 + -|t| * 2 * 0.2 + s * 0.2) 0) 100 with hph
  have h0 : (0 : ℚ) ≤ ph := le_min (le_max_right _ _) (by norm_num)
  have h100 : ph ≤ 100 := min_le_right _ _
  have hmm : min (max (100 - ph) 0) 100 = 100 - ph := by
    rw [max_eq_left (by linarith), min_eq_left (by linarith)]
  rw [hmm, rnd1_100_sub]

lemma map_const_false (l : List ℚ) : l.map (fun _ => false) = List.replicate l.length false := by
  induction l with
  | nil => rfl
  | cons x xs ih => simp [List.replicate_succ, ih]

lemma meanQ_const (xs : List ℚ) (c : ℚ) (hne : xs ≠ []) (hc : ∀ x ∈ xs, x = c) :
    meanQ xs = c := by
  have hlen : (xs.length : ℚ) ≠ 0 := by
    have := List.length_pos.2 hne
    exact_mod_cast Nat.pos_iff_ne_zero.1 this
  have hsum : xs.sum = xs.length • c := List.sum_eq_card_nsmul xs c hc
  unfold meanQ
  rw [hsum, nsmul_eq_mul]
  field_simp

lemma sampleVar_const (xs : List ℚ) (c : ℚ) (hne : xs ≠ []) (hc : ∀ x ∈ xs, x = c) :
    sampleVar xs = none ∨ sampleVar xs = some 0 := by
  unfold sampleVar
  split_ifs with h
  · exact Or.inl rfl
  · refine Or.inr ?_
    have hm : meanQ xs = c := meanQ_const xs c hne hc
    have hz : (xs.map (fun x => (x - meanQ xs) ^ 2)).sum = 0 := by
      apply List.sum_eq_zero
      intro y hy
      simp only [List.mem_map] at hy
      obtain ⟨x, hx, rfl⟩ := hy
      rw [hm, hc x hx]
      ring
    rw [hz]
    simp

/-- C5: on a nonempty column whose values are all identical, the three
anomaly detectors return an all-false vector of the column's length
(zero sample variance, or a NaN deviation for a single row, never flags
and never divides by zero). -/
theorem detectors_all_false_on_constant (xs : List ℚ) (c sens : ℚ)
    (hne : xs ≠ []) (hc : ∀ x ∈ xs, x = c) :
    detect_anomalies xs sens = List.replicate xs.length false ∧
    detect_spike xs sens = List.replicate xs.length false ∧
    detect_drop xs sens = List.replicate xs.length false := by
  rcases sampleVar_const xs c hne hc with hv | hv
  · unfold detect_anomalies detect_spike detect_drop
    rw [if_neg hne, if_neg hne, if_neg hne, hv]
    exact ⟨map_const_false xs, map_const_false xs, map_const_false xs⟩
  · unfold detect_anomalies detect_spike detect_drop
    rw [if_neg hne, if_neg hne, if_neg hne, hv]
    simp

unseal Rat.add Rat.mul Rat.inv Rat.sub Rat.ofScientific in
/-- Witness for `detectors_all_false_on_constant` at `xs = [3, 3]`. -/
theorem detectors_all_false_on_constant_witness :
    detect_anomalies [3, 3] 2 = List.replicate 2 false ∧
    detect_spike [3, 3] 2 = List.replicate 2 false ∧
    detect_drop [3, 3] 2 = List.replicate 2 false :=
  detectors_all_false_on_constant [3, 3] 3 2 (by decide) (by decide)

/-- C4 (counterexample): for equal expected and actual delivery dates the
derived `supply_risk` value is the string "On Time" (with a space), not
"OnTime" as the claim states. -/
theorem transform_supplier_data_ontime_label :
    (transform_supplier_data
        [⟨"S1", daysFromCivil 2024 1 10, daysFromCivil 2024 1 10⟩]).map (·.supply_risk)
      = ["On Time"] ∧
    (transform_supplier_data
        [⟨"S1", daysFromCivil 2024 1 10, daysFromCivil 2024 1 10⟩]).map (·.supply_risk)
      ≠ ["OnTime"] := by
  decide

/-- C4 (amended): `transform_supplier_data` derives, row by row,
`supply_risk = "Delayed"` exactly when the actual delivery date is strictly
later than the expected one (by at least one day), and `"On Time"`
otherwise (in particular when the dates are equal); expected 2024-01-10
with actual 2024-01-12 yields "Delayed". -/
theorem transform_supplier_data_risk :
    (∀ (df : List RawSupRow) (i : ℕ),
      ((transform_supplier_data df)[i]?).map (·.supply_risk)
        = (df[i]?).map (fun r =>
            if r.expected_delivery_date < r.actual_delivery_date then "Delayed"
            else "On Time")) ∧
    (transform_supplier_data
        [⟨"S1", daysFromCivil 2024 1 10, daysFromCivil 2024 1 12⟩]).map (·.supply_risk)
      = ["Delayed"] := by
  constructor
  · intro df i
    cases h : df[i]? with
    | none => simp [transform_supplier_data, h]
    | some r => simp [transform_supplier_data, h, sub_pos]
  · decide

/-- C6: when every row's efficiency is at least the threshold, the
root-cause analysis returns exactly the single sentinel entry
(factor "No Issues", contribution 0). -/
theorem root_cause_no_issues (prod : List ProdRow) (threshold : ℚ)
    (h : ∀ r ∈ prod, threshold ≤ r.efficiency) :
    perform_root_cause_analysis prod threshold
      = [{ factor := "No Issues", contribution := 0 }] := by
  have hfil : prod.filter (fun r => decide (r.efficiency < threshold)) = [] := by
    rw [List.filter_eq_nil_iff]
    intro a ha
    simp only [decide_eq_true_eq, not_lt]
    exact h a ha
  unfold perform_root_cause_analysis
  rw [hfil]
  simp

unseal Rat.add Rat.mul Rat.inv Rat.sub Rat.ofScientific in
/-- Witness for `root_cause_no_issues` at a single row with efficiency 80
and threshold 75. -/
theorem root_cause_no_issues_witness :
    perform_root_cause_analysis [⟨"M1", 80, 32, 0, 1000⟩] 75
      = [{ factor := "No Issues", contribution := 0 }] :=
  root_cause_no_issues [⟨"M1", 80, 32, 0, 1000⟩] 75 (by decide)

/-- C9: `prioritize_alerts` is idempotent: sorting by the
`(priority, severity)` key twice gives the same list as sorting once. -/
theorem prioritize_alerts_idempotent (alerts : List Alert) :
    prioritize_alerts (prioritize_alerts alerts) = prioritize_alerts alerts := by
  have htrans : ∀ a b c : Alert, prioLexLe a b → prioLexLe b c → prioLexLe a c := by
    intro a b c hab hbc
    simp only [prioLexLe, decide_eq_true_eq] at hab hbc ⊢
    rcases hab with h1 | ⟨h1, h2⟩ <;> rcases hbc with h3 | ⟨h3, h4⟩
    · exact Or.inl (lt_trans h1 h3)
    · exact Or.inl (by omega)
    · exact Or.inl (by omega)
    · exact Or.inr ⟨by omega, le_trans h2 h4⟩
  have htotal : ∀ a b : Alert, prioLexLe a b || prioLexLe b a := by
    intro a b
    simp only [prioLexLe, Bool.or_eq_true, decide_eq_true_eq]
    rcases Nat.lt_trichotomy a.priority b.priority with h | h | h
    · exact Or.inl (Or.inl h)
    · rcases le_total a.severity b.severity with hs | hs
      · exact Or.inl (Or.inr ⟨h, hs⟩)
      · exact Or.inr (Or.inr ⟨h.symm, hs⟩)
    · exact Or.inr (Or.inl h)
  unfold prioritize_alerts
  exact List.mergeSort_of_sorted (List.sorted_mergeSort htrans htotal alerts)

lemma priorityLe_trans : ∀ a b c : Alert, priorityLe a b → priorityLe b c → priorityLe a c := by
  intro a b c hab hbc
  simp only [priorityLe, decide_eq_true_eq] at hab hbc ⊢
  omega

lemma priorityLe_total : ∀ a b : Alert, priorityLe a b || priorityLe b a := by
  intro a b
  simp only [priorityLe, Bool.or_eq_true, decide_eq_true_eq]
  omega

/-- Stability of the final sort: a boolean filter whose selected elements
are pairwise tied under the sorting key is unchanged by `mergeSort`. -/
lemma filter_mergeSort_eq_filter (le : α → α → Bool)
    (htrans : ∀ a b c, le a b → le b c → le a c)
    (htotal : ∀ a b, le a b || le b a)
    (p : α → Bool) (l : List α)
    (hp : ∀ x ∈ l, ∀ y ∈ l, p x → p y → le x y) :
    (l.mergeSort le).filter p = l.filter p := by
  have hsub : List.Sublist (l.filter p) l := List.filter_sublist l
  have hpair : (l.filter p).Pairwise (fun a b => le a b) := by
    apply List.pairwise_of_forall_mem_list
    intro a ha b hb
    have ha2 := List.mem_filter.1 ha
    have hb2 := List.mem_filter.1 hb
    exact hp a ha2.1 b hb2.1 ha2.2 hb2.2
  have h1 : List.Sublist (l.filter p) (l.mergeSort le) :=
    List.sublist_mergeSort htrans htotal hpair hsub
  have h2 : List.Sublist (l.filter p) ((l.mergeSort le).filter p) := by
    have h3 := h1.filter p
    have h4 : (l.filter p).filter p = l.filter p := by
      rw [List.filter_eq_self]
      intro a ha
      exact (List.mem_filter.1 ha).2
    rwa [h4] at h3
  have hperm : ((l.mergeSort le).filter p).length = (l.filter p).length :=
    (((List.mergeSort_perm l le).filter p)).length_eq
  exact (h2.eq_of_length hperm.symm).symm

lemma lowEffAlerts_mem (prod : List ProdRow) :
    ∀ a ∈ lowEffAlerts prod, a.category = "Production" ∧ a.priority = 1 := by
  intro a ha
  simp only [lowEffAlerts, List.mem_map] at ha
  obtain ⟨m, _, rfl⟩ := ha
  exact ⟨rfl, rfl⟩

lemma tempAlerts_mem (prod : List ProdRow) (sens : ℚ) :
    ∀ a ∈ tempAlerts prod sens, a.category = "Safety" := by
  intro a ha
  simp only [tempAlerts] at ha
  split_ifs at ha with h1 h2
  · simp only [List.mem_singleton] at ha
    subst ha
    rfl
  · simp only [List.mem_singleton] at ha
    subst ha
    rfl
  · simp at ha

lemma downtimeAlerts_mem (prod : List ProdRow) (sens : ℚ) :
    ∀ a ∈ downtimeAlerts prod sens, a.category = "Operational" := by
  intro a ha
  simp only [downtimeAlerts] at ha
  split_ifs at ha with h
  · simp only [List.mem_singleton] at ha
    subst ha
    rfl
  · simp at ha

lemma supplyAlerts_mem (sup : List SupRow) :
    ∀ a ∈ supplyAlerts sup, a = supplyAlert sup := by
  intro a ha
  simp only [supplyAlerts] at ha
  split_ifs at ha with h1 h2
  · simp at ha
  · simp only [List.mem_singleton] at ha
    exact ha
  · simp at ha

lemma supplyAlert_category (sup : List SupRow) :
    (supplyAlert sup).category = "Supply Chain" := by
  simp only [supplyAlert]

lemma trendAlerts_mem (prod : List ProdRow) :
    ∀ a ∈ trendAlerts prod, a.category = "Trend Analysis" := by
  intro a ha
  simp only [trendAlerts] at ha
  split_ifs at ha with h1 h2
  · simp only [List.mem_singleton] at ha
    subst ha
    rfl
  · simp at ha
  · simp at ha

/-- C8: the alert list returned by `generate_alerts` is sorted
non-decreasing by priority, and the final sort is stable: for every
priority value, the subsequence of alerts with that priority equals, in
order, the alerts of that priority in rule-emission order. -/
theorem generate_alerts_sorted_stable (prod : List ProdRow) (sup : List SupRow) (sens : ℚ) :
    (generate_alerts prod sup sens).Pairwise (fun a b => a.priority ≤ b.priority) ∧
    ∀ p : ℕ, (generate_alerts prod sup sens).filter (fun a => a.priority == p)
      = (emitted_alerts prod sup sens).filter (fun a => a.priority == p) := by
  unfold generate_alerts
  constructor
  · have h := List.sorted_mergeSort priorityLe_trans priorityLe_total
      (emitted_alerts prod sup sens)
    exact h.imp (fun hab => by simpa [priorityLe] using hab)
  · intro p
    apply filter_mergeSort_eq_filter priorityLe priorityLe_trans priorityLe_total
    intro x _ y _ hx hy
    simp only [beq_iff_eq] at hx hy
    simp only [priorityLe, decide_eq_true_eq]
    omega

lemma uniqueFirst_loop_mem (l : List String) : ∀ (acc : List String) (a : String),
    (a ∈ l.foldl (fun acc x => if x ∈ acc then acc else acc.concat x) acc) ↔
      a ∈ acc ∨ a ∈ l := by
  induction l with
  | nil =>
    intro acc a
    simp
  | cons x xs ih =>
    intro acc a
    simp only [List.foldl_cons]
    rw [ih]
    by_cases hx : x ∈ acc
    · simp only [hx, if_true, List.mem_cons]
      constructor
      · rintro (h | h)
        · exact Or.inl h
        · exact Or.inr (Or.inr h)
      · rintro (h | rfl | h)
        · exact Or.inl h
        · exact Or.inl hx
        · exact Or.inr h
    · simp only [hx, if_false, List.concat_eq_append, List.mem_append,
        List.mem_singleton, List.mem_cons]
      tauto

lemma uniqueFirst_mem (l : List String) (a : String) : a ∈ uniqueFirst l ↔ a ∈ l := by
  unfold uniqueFirst
  rw [uniqueFirst_loop_mem]
  simp

lemma uniqueFirst_loop_nodup (l : List String) : ∀ acc : List String, acc.Nodup →
    (l.foldl (fun acc x => if x ∈ acc then acc else acc.concat x) acc).Nodup := by
  induction l with
  | nil =>
    intro acc h
    simpa using h
  | cons x xs ih =>
    intro acc h
    simp only [List.foldl_cons]
    apply ih
    by_cases hx : x ∈ acc
    · simpa [hx] using h
    · simp only [hx, if_false, List.concat_eq_append]
      rw [List.nodup_append]
      refine ⟨h, List.nodup_singleton x, ?_⟩
      intro a ha hax
      simp only [List.mem_singleton] at hax
      subst hax
      exact hx ha

lemma uniqueFirst_nodup (l : List String) : (uniqueFirst l).Nodup :=
  uniqueFirst_loop_nodup l [] (by simp)

lemma emitted_filter_production (prod : List ProdRow) (sup : List SupRow) (sens : ℚ) :
    (emitted_alerts prod sup sens).filter (fun a => a.category == "Production")
      = lowEffAlerts prod := by
  unfold emitted_alerts
  split_ifs with hp
  · subst hp
    simp [lowEffAlerts, uniqueFirst]
  · rw [List.filter_append, List.filter_append, List.filter_append, List.filter_append]
    have h1 : (lowEffAlerts prod).filter (fun a => a.category == "Production")
        = lowEffAlerts prod := by
      rw [List.filter_eq_self]
      intro a ha
      simp [(lowEffAlerts_mem prod a ha).1]
    have h2 : (tempAlerts prod sens).filter (fun a => a.category == "Production") = [] := by
      rw [List.filter_eq_nil_iff]
      intro a ha
      simp [tempAlerts_mem prod sens a ha]
    have h3 : (downtimeAlerts prod sens).filter (fun a => a.category == "Production") = [] := by
      rw [List.filter_eq_nil_iff]
      intro a ha
      simp [downtimeAlerts_mem prod sens a ha]
    have h4 : (supplyAlerts sup).filter (fun a => a.category == "Production") = [] := by
      rw [List.filter_eq_nil_iff]
      intro a ha
      rw [supplyAlerts_mem sup a ha]
      simp [supplyAlert_category sup]
    have h5 : (trendAlerts prod).filter (fun a => a.category == "Production") = [] := by
      rw [List.filter_eq_nil_iff]
      intro a ha
      simp [trendAlerts_mem prod a ha]
    rw [h1, h2, h3, h4, h5]
    simp

lemma emitted_production_priority (prod : List ProdRow) (sup : List SupRow) (sens : ℚ) :
    ∀ a ∈ emitted_alerts prod sup sens, a.category = "Production" → a.priority = 1 := by
  intro a ha hc
  unfold emitted_alerts at ha
  split_ifs at ha with hp
  · simp at ha
  · simp only [List.append_assoc, List.mem_append] at ha
    rcases ha with h | h | h | h | h
    · exact (lowEffAlerts_mem prod a h).2
    · rw [tempAlerts_mem prod sens a h] at hc
      exact absurd hc (by decide)
    · rw [downtimeAlerts_mem prod sens a h] at hc
      exact absurd hc (by decide)
    · rw [supplyAlerts_mem sup a h, supplyAlert_category sup] at hc
      exact absurd hc (by decide)
    · rw [trendAlerts_mem prod a h] at hc
      exact absurd hc (by decide)

/-- C2 (amended): the Production-category alerts returned by
`generate_alerts` are exactly one CRITICAL, priority-1 alert per machine
having at least one record with `efficiency < 70` (machines in
first-occurrence order, without duplicates), the message embedding that
machine's mean efficiency to one decimal.  Selection is by any record
below 70, not by the mean. -/
theorem low_efficiency_alerts_per_machine (prod : List ProdRow) (sup : List SupRow) (sens : ℚ) :
    (generate_alerts prod sup sens).filter (fun a => a.category == "Production")
      = (uniqueFirst ((prod.filter (fun r => decide (r.efficiency < 70))).map
          (·.machine_id))).map (lowEffAlert prod) ∧
    (uniqueFirst ((prod.filter (fun r => decide (r.efficiency < 70))).map
      (·.machine_id))).Nodup ∧
    (∀ m, m ∈ uniqueFirst ((prod.filter (fun r => decide (r.efficiency < 70))).map
        (·.machine_id))
      ↔ ∃ r ∈ prod, r.machine_id = m ∧ r.efficiency < 70) ∧
    (∀ m, (lowEffAlert prod m).severity = "CRITICAL" ∧
      (lowEffAlert prod m).priority = 1 ∧
      (lowEffAlert prod m).message
        = "Machine " ++ m ++ " efficiency critically low at " ++
          fmt1 (meanQ ((prod.filter (fun r => r.machine_id == m)).map (·.efficiency)))
          ++ "%") := by
  refine ⟨?_, uniqueFirst_nodup _, ?_, fun m => ⟨rfl, rfl, rfl⟩⟩
  · unfold generate_alerts
    rw [filter_mergeSort_eq_filter priorityLe priorityLe_trans priorityLe_total _ _ ?_,
      emitted_filter_production]
    · rfl
    · intro x hx y hy hpx hpy
      simp only [beq_iff_eq] at hpx hpy
      have h1 := emitted_production_priority prod sup sens x hx hpx
      have h2 := emitted_production_priority prod sup sens y hy hpy
      simp only [priorityLe, decide_eq_true_eq]
      omega
  · intro m
    rw [uniqueFirst_mem]
    simp only [List.mem_map, List.mem_filter, decide_eq_true_eq]
    constructor
    · rintro ⟨r, ⟨hr, hlt⟩, rfl⟩
      exact ⟨r, hr, rfl, hlt⟩
    · rintro ⟨r, hr, rfl, hlt⟩
      exact ⟨r, ⟨hr, hlt⟩, rfl⟩

unseal Rat.add Rat.mul Rat.inv Rat.sub Rat.ofScientific in
/-- C2 (counterexample): machine M1 has efficiency records 60 and 90, so
its mean efficiency is 75 ≥ 70, yet `generate_alerts` emits a (CRITICAL,
priority-1) Production alert for it: the rule selects machines with any
record below 70, not machines with mean below 70. -/
theorem low_efficiency_alert_despite_high_mean :
    (generate_alerts [⟨"M1", 60, 32, 0, 0⟩, ⟨"M1", 90, 32, 0, 0⟩] [] (3/2)).countP
        (fun a => a.category == "Production") = 1 ∧
    meanQ ((([⟨"M1", 60, 32, 0, 0⟩, ⟨"M1", 90, 32, 0, 0⟩] : List ProdRow).filter
        (fun r => r.machine_id == "M1")).map (·.efficiency)) = 75 := by
  have h : emitted_alerts [⟨"M1", 60, 32, 0, 0⟩, ⟨"M1", 90, 32, 0, 0⟩] [] (3/2)
      = [lowEffAlert [⟨"M1", 60, 32, 0, 0⟩, ⟨"M1", 90, 32, 0, 0⟩] "M1"] := by
    decide
  constructor
  · unfold generate_alerts
    rw [h, List.mergeSort_singleton]
    decide
  · decide

lemma emitted_supply_eq (prod : List ProdRow) (sup : List SupRow) (sens : ℚ) :
    ∀ a ∈ emitted_alerts prod sup sens, a.category = "Supply Chain"
      → a = supplyAlert sup := by
  intro a ha hc
  unfold emitted_alerts at ha
  split_ifs at ha with hp
  · simp at ha
  · simp only [List.append_assoc, List.mem_append] at ha
    rcases ha with h | h | h | h | h
    · rw [(lowEffAlerts_mem prod a h).1] at hc
      exact absurd hc (by decide)
    · rw [tempAlerts_mem prod sens a h] at hc
      exact absurd hc (by decide)
    · rw [downtimeAlerts_mem prod sens a h] at hc
      exact absurd hc (by decide)
    · exact supplyAlerts_mem sup a h
    · rw [trendAlerts_mem prod a h] at hc
      exact absurd hc (by decide)

lemma emitted_filter_supply (prod : List ProdRow) (sup : List SupRow) (sens : ℚ)
    (hp : prod ≠ [])
    (hd : 0 < (sup.filter (fun s => s.supply_risk == "Delayed")).length) :
    (emitted_alerts prod sup sens).filter (fun a => a.category == "Supply Chain")
      = [supplyAlert sup] := by
  have hsne : sup ≠ [] := by
    intro h
    subst h
    simp at hd
  unfold emitted_alerts
  rw [if_neg hp]
  rw [List.filter_append, List.filter_append, List.filter_append, List.filter_append]
  have h1 : (lowEffAlerts prod).filter (fun a => a.category == "Supply Chain") = [] := by
    rw [List.filter_eq_nil_iff]
    intro a ha
    simp [(lowEffAlerts_mem prod a ha).1]
  have h2 : (tempAlerts prod sens).filter (fun a => a.category == "Supply Chain") = [] := by
    rw [List.filter_eq_nil_iff]
    intro a ha
    simp [tempAlerts_mem prod sens a ha]
  have h3 : (downtimeAlerts prod sens).filter (fun a => a.category == "Supply Chain") = [] := by
    rw [List.filter_eq_nil_iff]
    intro a ha
    simp [downtimeAlerts_mem prod sens a ha]
  have h5 : (trendAlerts prod).filter (fun a => a.category == "Supply Chain") = [] := by
    rw [List.filter_eq_nil_iff]
    intro a ha
    simp [trendAlerts_mem prod a ha]
  have h4 : (supplyAlerts sup).filter (fun a => a.category == "Supply Chain")
      = [supplyAlert sup] := by
    unfold supplyAlerts
    rw [if_neg hsne, if_pos hd]
    have hc : ((supplyAlert sup).category == "Supply Chain") = true := by
      rw [supplyAlert_category]
      rfl
    simp [List.filter, hc]
  rw [h1, h2, h3, h4, h5]
  simp

/-- C3 (amended): provided the production table is non-empty, a supplier
table with at least one Delayed row produces exactly one Supply-Chain
alert, WARNING with priority 2 when the delayed count is at most 2 and
CRITICAL with priority 1 otherwise.  (With an empty production table
`generate_alerts` returns early and emits no alerts at all.) -/
theorem supply_delay_alert_requires_production (prod : List ProdRow) (sup : List SupRow)
    (sens : ℚ) (hp : prod ≠ [])
    (hd : 0 < (sup.filter (fun s => s.supply_risk == "Delayed")).length) :
    (generate_alerts prod sup sens).filter (fun a => a.category == "Supply Chain")
      = [supplyAlert sup] ∧
    ((sup.filter (fun s => s.supply_risk == "Delayed")).length ≤ 2 →
      (supplyAlert sup).severity = "WARNING" ∧ (supplyAlert sup).priority = 2) ∧
    (¬ (sup.filter (fun s => s.supply_risk == "Delayed")).length ≤ 2 →
      (supplyAlert sup).severity = "CRITICAL" ∧ (supplyAlert sup).priority = 1) := by
  refine ⟨?_, ?_, ?_⟩
  · unfold generate_alerts
    rw [filter_mergeSort_eq_filter priorityLe priorityLe_trans priorityLe_total _ _ ?_,
      emitted_filter_supply prod sup sens hp hd]
    intro x hx y hy hpx hpy
    simp only [beq_iff_eq] at hpx hpy
    rw [emitted_supply_eq prod sup sens x hx hpx, emitted_supply_eq prod sup sens y hy hpy]
    simp [priorityLe]
  · intro h
    constructor <;> simp [supplyAlert, h]
  · intro h
    constructor <;> simp [supplyAlert, h]

/-- Witness for `supply_delay_alert_requires_production`: one production
row and one delayed supplier row. -/
theorem supply_delay_alert_requires_production_witness :
    (generate_alerts [⟨"M1", 80, 32, 0, 0⟩] [⟨"S1", "Delayed"⟩] (3/2)).filter
        (fun a => a.category == "Supply Chain")
      = [supplyAlert [⟨"S1", "Delayed"⟩]] ∧
    ((([⟨"S1", "Delayed"⟩] : List SupRow).filter
        (fun s => s.supply_risk == "Delayed")).length ≤ 2 →
      (supplyAlert [⟨"S1", "Delayed"⟩]).severity = "WARNING" ∧
      (supplyAlert [⟨"S1", "Delayed"⟩]).priority = 2) ∧
    (¬ (([⟨"S1", "Delayed"⟩] : List SupRow).filter
        (fun s => s.supply_risk == "Delayed")).length ≤ 2 →
      (supplyAlert [⟨"S1", "Delayed"⟩]).severity = "CRITICAL" ∧
      (supplyAlert [⟨"S1", "Delayed"⟩]).priority = 1) :=
  supply_delay_alert_requires_production [⟨"M1", 80, 32, 0, 0⟩] [⟨"S1", "Delayed"⟩] (3/2)
    (by decide) (by decide)

/-- C3 (counterexample): the claim promises a supply-delay alert
"regardless of the contents of the production table", but with an empty
production table `generate_alerts` returns early: no alert is emitted even
though the supplier table is non-empty and contains a Delayed row. -/
theorem no_supply_alert_when_production_empty :
    generate_alerts [] [⟨"S1", "Delayed"⟩] (3/2) = [] ∧
    0 < (([⟨"S1", "Delayed"⟩] : List SupRow).filter
        (fun s => s.supply_risk == "Delayed")).length := by
  constructor
  · unfold generate_alerts
    have h : emitted_alerts [] [⟨"S1", "Delayed"⟩] (3/2) = [] := rfl
    rw [h, List.mergeSort_nil]
  · decide
